import Mathlib

/-!
Shallow embedding of `src/APIcallsmaspool_instantlyGS.py` (a Selenium-based
account-linking automation script) and proofs about the claims of its
specification.  Pure fragments of the Python code are translated into
executable Lean functions; the stateful per-account workflow is modelled as a
function from an environment (which UI steps succeed) to the observable
outcome (status reports, browser-session state, return value).
-/

namespace InstantlyUploads

/- ------------------------------------------------------------------
Phone-number normalization, from `handle_phone_verification`
(src lines 267-270):

    formatted_number = str(phone_number)
    if not formatted_number.startswith("+"):
        formatted_number = "+" + formatted_number.lstrip("0")
------------------------------------------------------------------- -/

/-- Model of Python `str.strip()`: remove leading and trailing whitespace
from both ends of the string. -/
def pyStrip (s : String) : String :=
  String.mk (((s.data.dropWhile Char.isWhitespace).reverse.dropWhile Char.isWhitespace).reverse)

/-- Model of Python `formatted_number.startswith("+")`, over the character
list of the string. -/
def startsWithPlus (s : String) : Bool :=
  List.isPrefixOf "+".data s.data

/-- Translation of the phone-number formatting in `handle_phone_verification`:
`lstrip("0")` removes every leading `'0'`, then `"+"` is prefixed, and an
input already starting with `"+"` is returned unchanged. -/
def format_phone (s : String) : String :=
  if startsWithPlus s then s
  else String.mk ('+' :: List.dropWhile (fun c => c == '0') s.data)

/- ------------------------------------------------------------------
OTP extraction, from `handle_phone_verification` (src lines 315-321):

    otp_match = re.search(r"(\d{4,8})", sms_text)
    if otp_match:
        otp_code = otp_match.group(1)
    else:
        otp_code = sms_text.strip()

`re.search` with the pattern `\d{4,8}` returns the leftmost match: the
earliest position at which at least 4 consecutive digits begin, matching
greedily up to 8 of them.  Digits are modelled as ASCII digits.
------------------------------------------------------------------- -/

/-- Model of `re.search(r"(\d{4,8})", ·)` over the character list of the SMS
body: at each position, if a run of at least 4 consecutive digits starts
there, the first `min 8 run-length` digits of that run are the match;
otherwise the search moves one character to the right. -/
def reSearchDigits : List Char → Option (List Char)
  | [] => none
  | c :: cs =>
    let run := List.takeWhile Char.isDigit (c :: cs)
    if 4 ≤ run.length then some (run.take 8) else reSearchDigits cs

/-- Translation of the OTP-extraction fragment of `handle_phone_verification`:
the regex match when one exists, otherwise the stripped full SMS text. -/
def extract_otp (sms_text : String) : String :=
  match reSearchDigits sms_text.data with
  | some ds => String.mk ds
  | none => pyStrip sms_text

/-- The first maximal run of consecutive digits of a character list, if the
list contains any digit at all (used to state the implicit claim about
digit runs longer than 8). -/
def firstDigitRun : List Char → Option (List Char)
  | [] => none
  | c :: cs =>
    if Char.isDigit c then some (List.takeWhile Char.isDigit (c :: cs))
    else firstDigitRun cs

/-- Independent characterization of "the body contains a run of 4 or more
consecutive digits". -/
def hasFourDigitRun : List Char → Bool
  | a :: b :: c :: d :: t =>
    (Char.isDigit a && Char.isDigit b && Char.isDigit c && Char.isDigit d)
      || hasFourDigitRun (b :: c :: d :: t)
  | _ => false

/- Helper lemmas about the digit-run search. -/

theorem reSearchDigits_cons_pos {c : Char} {cs : List Char}
    (h : 4 ≤ (List.takeWhile Char.isDigit (c :: cs)).length) :
    reSearchDigits (c :: cs) = some ((List.takeWhile Char.isDigit (c :: cs)).take 8) := by
  simp [reSearchDigits, h]

theorem reSearchDigits_cons_neg {c : Char} {cs : List Char}
    (h : ¬ 4 ≤ (List.takeWhile Char.isDigit (c :: cs)).length) :
    reSearchDigits (c :: cs) = reSearchDigits cs := by
  simp [reSearchDigits, h]

/-- A successful match is a run of 4 to 8 consecutive ASCII digits occurring
contiguously inside the input. -/
theorem reSearchDigits_sound :
    ∀ (l ds : List Char), reSearchDigits l = some ds →
      4 ≤ ds.length ∧ ds.length ≤ 8 ∧ ds.all Char.isDigit = true ∧
        ∃ pre post, l = pre ++ (ds ++ post) := by
  intro l
  induction l with
  | nil => intro ds h; simp [reSearchDigits] at h
  | cons c cs ih =>
    intro ds h
    by_cases hlen : 4 ≤ (List.takeWhile Char.isDigit (c :: cs)).length
    · rw [reSearchDigits_cons_pos hlen] at h
      have hds : ds = (List.takeWhile Char.isDigit (c :: cs)).take 8 :=
        (Option.some.injEq _ _ ▸ h).symm
      subst hds
      refine ⟨?_, ?_, ?_, ?_⟩
      · rw [List.length_take]
        omega
      · rw [List.length_take]
        omega
      · rw [List.all_eq_true]
        intro x hx
        exact List.mem_takeWhile_imp (List.mem_of_mem_take hx)
      · refine ⟨[], (List.takeWhile Char.isDigit (c :: cs)).drop 8 ++
          List.dropWhile Char.isDigit (c :: cs), ?_⟩
        rw [List.nil_append, ← List.append_assoc, List.take_append_drop,
          List.takeWhile_append_dropWhile]
    · rw [reSearchDigits_cons_neg hlen] at h
      obtain ⟨h1, h2, h3, pre, post, hsplit⟩ := ih ds h
      exact ⟨h1, h2, h3, c :: pre, post, by rw [hsplit]; rfl⟩

theorem four_le_takeWhile_iff (a b c d : Char) (t : List Char) :
    (4 ≤ (List.takeWhile Char.isDigit (a :: b :: c :: d :: t)).length) ↔
      (Char.isDigit a && Char.isDigit b && Char.isDigit c && Char.isDigit d) = true := by
  cases ha : Char.isDigit a <;> cases hb : Char.isDigit b <;>
    cases hc : Char.isDigit c <;> cases hd : Char.isDigit d <;>
      simp [List.takeWhile_cons, ha, hb, hc, hd]

theorem reSearchDigits_short : ∀ l : List Char, l.length < 4 → reSearchDigits l = none := by
  intro l
  induction l with
  | nil => intro _; rfl
  | cons c cs ih =>
    intro h
    have hlen : (List.takeWhile Char.isDigit (c :: cs)).length < 4 :=
      lt_of_le_of_lt (List.Sublist.length_le (List.takeWhile_sublist Char.isDigit)) h
    rw [reSearchDigits_cons_neg (by omega)]
    refine ih ?_
    simp only [List.length_cons] at h
    omega

/-- The code's digit search succeeds exactly when the body contains a run of
4 or more consecutive digits. -/
theorem reSearchDigits_isSome_eq :
    ∀ l : List Char, (reSearchDigits l).isSome = hasFourDigitRun l := by
  intro l
  induction l with
  | nil => rfl
  | cons x cs ih =>
    rcases cs with _ | ⟨b, _ | ⟨c2, _ | ⟨d, t⟩⟩⟩
    · rw [reSearchDigits_short [x] (by simp)]; rfl
    · rw [reSearchDigits_short [x, b] (by simp)]; rfl
    · rw [reSearchDigits_short [x, b, c2] (by simp)]; rfl
    · have hstep : hasFourDigitRun (x :: b :: c2 :: d :: t)
          = ((Char.isDigit x && Char.isDigit b && Char.isDigit c2 && Char.isDigit d)
            || hasFourDigitRun (b :: c2 :: d :: t)) := rfl
      by_cases h4 : 4 ≤ (List.takeWhile Char.isDigit (x :: b :: c2 :: d :: t)).length
      · rw [reSearchDigits_cons_pos h4, hstep]
        rw [(four_le_takeWhile_iff x b c2 d t).mp h4]
        rfl
      · rw [reSearchDigits_cons_neg h4, hstep]
        cases hfour : (Char.isDigit x && Char.isDigit b && Char.isDigit c2 && Char.isDigit d) with
        | true => exact absurd ((four_le_takeWhile_iff x b c2 d t).mpr hfour) h4
        | false => rw [Bool.false_or]; exact ih

/-- When the first maximal digit run is longer than 8, the search matches that
run truncated to its first 8 digits. -/
theorem firstDigitRun_long_take :
    ∀ (l r : List Char), firstDigitRun l = some r → 8 < r.length →
      reSearchDigits l = some (r.take 8) := by
  intro l
  induction l with
  | nil => intro r h _; simp [firstDigitRun] at h
  | cons c cs ih =>
    intro r h hlen
    by_cases hc : Char.isDigit c
    · simp only [firstDigitRun, hc, if_true, Option.some.injEq] at h
      subst h
      exact reSearchDigits_cons_pos (by omega)
    · simp only [firstDigitRun, hc, if_false] at h
      have hempty : List.takeWhile Char.isDigit (c :: cs) = [] := by
        simp [List.takeWhile_cons, hc]
      rw [reSearchDigits_cons_neg (by rw [hempty]; simp)]
      exact ih r h hlen

/-- C5: phone-number normalization maps `15551234567` to `+15551234567`,
maps `0015551234567` to `+15551234567` (leading zeros stripped before
prefixing the `+`), and leaves any input already starting with `+`
unchanged. -/
theorem C5_phone_normalization :
    format_phone "15551234567" = "+15551234567" ∧
    format_phone "0015551234567" = "+15551234567" ∧
    ∀ s : String, startsWithPlus s = true → format_phone s = s := by
  refine ⟨by decide, by decide, ?_⟩
  intro s h
  simp [format_phone, h]

/-- Witness for C5: the third conjunct applied to a concrete input that
already starts with `+`. -/
theorem C5_phone_normalization_witness :
    format_phone "+15551234567" = "+15551234567" :=
  C5_phone_normalization.2.2 "+15551234567" (by decide)

/-- C6: OTP extraction applies a 4-to-8-consecutive-digit run pattern to the
SMS body and returns the matched run (a contiguous run of 4 to 8 digits
occurring in the body); if no such run is found it returns the full trimmed
SMS text.  The body about a Google code yields `482913`, and a body without
digits yields the trimmed full body. -/
theorem C6_otp_extraction :
    extract_otp "Your Google code is 482913. Don\x27t share it." = "482913" ∧
    extract_otp "Verification pending" = pyStrip "Verification pending" ∧
    (∀ s : String, reSearchDigits s.data = none → extract_otp s = pyStrip s) ∧
    (∀ (s : String) (ds : List Char), reSearchDigits s.data = some ds →
      extract_otp s = String.mk ds ∧ 4 ≤ ds.length ∧ ds.length ≤ 8 ∧
        ds.all Char.isDigit = true ∧ ∃ pre post, s.data = pre ++ (ds ++ post)) := by
  refine ⟨by decide, by decide, ?_, ?_⟩
  · intro s h
    simp [extract_otp, h]
  · intro s ds h
    refine ⟨by simp [extract_otp, h], ?_⟩
    obtain ⟨h1, h2, h3, pre, post, hsplit⟩ := reSearchDigits_sound s.data ds h
    exact ⟨h1, h2, h3, pre, post, hsplit⟩

/-- Witness for C6: the match-side conjunct applied to the concrete Google
SMS body. -/
theorem C6_otp_extraction_witness :
    extract_otp "Your Google code is 482913. Don\x27t share it."
      = String.mk "482913".data ∧ 4 ≤ "482913".data.length :=
  ⟨(C6_otp_extraction.2.2.2 "Your Google code is 482913. Don\x27t share it."
      "482913".data (by decide)).1,
   (C6_otp_extraction.2.2.2 "Your Google code is 482913. Don\x27t share it."
      "482913".data (by decide)).2.1⟩

/-- C10: for every SMS body whose first maximal run of consecutive digits is
longer than 8 digits, the extracted OTP is exactly the first 8 digits of that
run; the full-trimmed-body fallback branch is taken exactly when the body
contains no run of 4 or more consecutive digits. -/
theorem C10_long_run_truncation :
    (∀ (s : String) (r : List Char), firstDigitRun s.data = some r → 8 < r.length →
      extract_otp s = String.mk (r.take 8)) ∧
    (∀ s : String, hasFourDigitRun s.data = false → extract_otp s = pyStrip s) ∧
    (∀ s : String, hasFourDigitRun s.data = true → ∃ ds, reSearchDigits s.data = some ds) := by
  refine ⟨?_, ?_, ?_⟩
  · intro s r h hlen
    simp [extract_otp, firstDigitRun_long_take s.data r h hlen]
  · intro s h
    have hnone : reSearchDigits s.data = none := by
      have := reSearchDigits_isSome_eq s.data
      rw [h] at this
      exact Option.not_isSome_iff_eq_none.mp (by simp [this])
    simp [extract_otp, hnone]
  · intro s h
    have := reSearchDigits_isSome_eq s.data
    rw [h] at this
    exact Option.isSome_iff_exists.mp this

/-- Witness for C10: a body whose first digit run has 10 digits yields its
first 8 digits. -/
theorem C10_long_run_truncation_witness :
    extract_otp "code 1234567890 end" = String.mk (List.take 8 (String.data "1234567890")) :=
  C10_long_run_truncation.1 "code 1234567890 end" (String.data "1234567890")
    (by decide) (by decide)

/- ------------------------------------------------------------------
SMS polling, from `get_smspool_sms` (src lines 133-192):

    res = response.json()
    if "sms" in res and res["sms"]: return res["sms"]
    retries = 6
    while retries > 0:
        time_left = int(res.get("time_left", 30))
        if time_left <= 0: return None
        time.sleep(15)
        response = requests.post(...)
        if response.status_code != 200: return None
        res = response.json()
        if "sms" in res and res["sms"]: return res["sms"]
        retries -= 1
    return None

The provider is modelled as the initial check response plus a stream of
re-poll responses, each carrying the HTTP success flag, the optional `sms`
field and the optional `time_left` field.
------------------------------------------------------------------- -/

/-- One response of the SMS-check endpoint: HTTP success flag, optional
`sms` field, optional `time_left` field (already converted by `int(...)`,
with the Python-side default of 30 applied at use sites via `getD 30`). -/
structure PollResp where
  ok : Bool
  sms : Option String
  timeLeft : Option Int
deriving DecidableEq

/-- Python truthiness of `"sms" in res and res["sms"]`: the key is present
and its value is a non-empty string. -/
def smsPresent (r : PollResp) : Bool :=
  match r.sms with
  | some s => !(s == "")
  | none => false

/-- Observable outcome of `get_smspool_sms`: the returned SMS text (or
`none` for the Python `return None`), the number of re-poll requests issued
beyond the initial one, and the list of sleep durations in seconds. -/
structure PollOut where
  result : Option String
  polls : Nat
  sleeps : List Nat
deriving DecidableEq

/-- Translation of the `while retries > 0` loop of `get_smspool_sms`;
`retries` is the loop counter initialised to 6, `res` the response examined
at the top of the iteration, `polls` and `sleeps` the re-poll/sleep
accounting so far. -/
def pollLoop (stream : Nat → PollResp) : Nat → PollResp → Nat → List Nat → PollOut
  | 0, _, polls, sleeps => ⟨none, polls, sleeps⟩
  | retries + 1, res, polls, sleeps =>
    if (res.timeLeft.getD 30) ≤ 0 then ⟨none, polls, sleeps⟩
    else
      let r := stream polls
      if r.ok = false then ⟨none, polls + 1, sleeps ++ [15]⟩
      else if smsPresent r then ⟨r.sms, polls + 1, sleeps ++ [15]⟩
      else pollLoop stream retries r (polls + 1) (sleeps ++ [15])

/-- Translation of `get_smspool_sms` (the HTTP plumbing abstracted into the
initial response and the stream of re-poll responses). -/
def get_smspool_sms (first : PollResp) (stream : Nat → PollResp) : PollOut :=
  if first.ok = false then ⟨none, 0, []⟩
  else if smsPresent first then ⟨first.sms, 0, []⟩
  else pollLoop stream 6 first 0 []

/-- A check response that reports time remaining but carries no SMS. -/
def aliveResp (r : PollResp) : Prop :=
  r.ok = true ∧ smsPresent r = false ∧ 0 < r.timeLeft.getD 30

theorem pollLoop_all_alive (stream : Nat → PollResp) (hs : ∀ n, aliveResp (stream n)) :
    ∀ (retries : Nat) (res : PollResp) (polls : Nat) (sleeps : List Nat),
      0 < res.timeLeft.getD 30 →
      pollLoop stream retries res polls sleeps
        = ⟨none, polls + retries, sleeps ++ List.replicate retries 15⟩ := by
  intro retries
  induction retries with
  | zero => intro res polls sleeps _; simp [pollLoop]
  | succ k ih =>
    intro res polls sleeps hres
    obtain ⟨hok, hsms, htl⟩ := hs polls
    rw [pollLoop, if_neg (by omega), if_neg (by simp [hok]), if_neg (by simp [hsms])]
    rw [ih (stream polls) (polls + 1) (sleeps ++ [15]) htl]
    have hn : polls + 1 + k = polls + (k + 1) := by omega
    have hl : sleeps ++ [15] ++ List.replicate k 15 = sleeps ++ List.replicate (k + 1) 15 := by
      rw [List.append_assoc, List.singleton_append, ← List.replicate_succ]
    rw [hn, hl]

theorem pollLoop_bounds (stream : Nat → PollResp) :
    ∀ (retries : Nat) (res : PollResp) (polls : Nat) (sleeps : List Nat),
      (pollLoop stream retries res polls sleeps).polls ≤ polls + retries ∧
      (sleeps = List.replicate polls 15 →
        (pollLoop stream retries res polls sleeps).sleeps
          = List.replicate (pollLoop stream retries res polls sleeps).polls 15) := by
  intro retries
  induction retries with
  | zero =>
    intro res polls sleeps
    exact ⟨by simp [pollLoop], fun h => by simp [pollLoop, h]⟩
  | succ k ih =>
    intro res polls sleeps
    by_cases h1 : (res.timeLeft.getD 30) ≤ 0
    · rw [pollLoop, if_pos h1]
      exact ⟨by show polls ≤ polls + (k + 1); omega, fun h => by simpa using h⟩
    · rw [pollLoop, if_neg h1]
      by_cases h2 : (stream polls).ok = false
      · rw [if_pos h2]
        exact ⟨by show polls + 1 ≤ polls + (k + 1); omega,
          fun h => by simp [h, List.replicate_succ']⟩
      · rw [if_neg h2]
        by_cases h3 : smsPresent (stream polls) = true
        · rw [if_pos h3]
          exact ⟨by show polls + 1 ≤ polls + (k + 1); omega,
            fun h => by simp [h, List.replicate_succ']⟩
        · rw [if_neg h3]
          obtain ⟨ihp, ihs⟩ := ih (stream polls) (polls + 1) (sleeps ++ [15])
          refine ⟨le_trans ihp (by omega), fun h => ihs ?_⟩
          rw [h, List.replicate_succ']

/-- C3: if the SMS provider's check endpoint always returns `time_left > 0`
and never a populated `sms` field, the polling routine performs exactly 6
re-polls (each preceded by a fixed 15-second sleep) and returns failure
(`None`), never looping indefinitely; and on every input the loop performs
at most 6 re-polls, each preceded by one 15-second sleep. -/
theorem C3_polling_bound :
    (∀ (first : PollResp) (stream : Nat → PollResp),
      aliveResp first → (∀ n, aliveResp (stream n)) →
      get_smspool_sms first stream = ⟨none, 6, List.replicate 6 15⟩) ∧
    (∀ (first : PollResp) (stream : Nat → PollResp),
      (get_smspool_sms first stream).polls ≤ 6 ∧
      (get_smspool_sms first stream).sleeps
        = List.replicate (get_smspool_sms first stream).polls 15) := by
  constructor
  · intro first stream hf hs
    obtain ⟨hok, hsms, htl⟩ := hf
    rw [get_smspool_sms, if_neg (by simp [hok]), if_neg (by simp [hsms])]
    rw [pollLoop_all_alive stream hs 6 first 0 [] htl]
    simp
  · intro first stream
    rw [get_smspool_sms]
    by_cases h1 : first.ok = false
    · rw [if_pos h1]
      exact ⟨by show (0 : Nat) ≤ 6; omega, rfl⟩
    · rw [if_neg h1]
      by_cases h2 : smsPresent first = true
      · rw [if_pos h2]
        exact ⟨by show (0 : Nat) ≤ 6; omega, rfl⟩
      · rw [if_neg h2]
        obtain ⟨hp, hsl⟩ := pollLoop_bounds stream 6 first 0 []
        exact ⟨by simpa using hp, hsl rfl⟩

/-- Witness for C3: a provider that always answers with `time_left = 30` and
no SMS makes the routine fail after exactly 6 re-polls and 6 sleeps. -/
theorem C3_polling_bound_witness :
    get_smspool_sms ⟨true, none, some 30⟩ (fun _ => ⟨true, none, some 30⟩)
      = ⟨none, 6, List.replicate 6 15⟩ := by
  refine C3_polling_bound.1 _ _ ⟨rfl, rfl, by decide⟩ ?_
  intro n
  show aliveResp ⟨true, none, some 30⟩
  exact ⟨rfl, rfl, by decide⟩

/- ------------------------------------------------------------------
Worklist ingestion, from `read_google_sheet` (src lines 45-51):

    for row in rows:
        if len(row) < 5:
            row.extend([""] * (5 - len(row)))  # Ensure at least 5 columns
        if len(row) < 6:
            row.append("pending")  # Add 'status' if not present
        if len(row) < 7:
            row.append("")  # Add 'max_parallel_tabs' if not present

and the coordinator's status filter, from `main` (src lines 891-893):

    status = row[4].strip().lower()
    if status == "done":
        continue
------------------------------------------------------------------- -/

/-- Model of Python `str.lower()` over the character list. -/
def pyLower (s : String) : String :=
  String.mk (s.data.map Char.toLower)

/-- Translation of the per-row padding loop body of `read_google_sheet`. -/
def padRow (row : List String) : List String :=
  let r1 := if row.length < 5 then row ++ List.replicate (5 - row.length) "" else row
  let r2 := if r1.length < 6 then r1 ++ ["pending"] else r1
  if r2.length < 7 then r2 ++ [""] else r2

/-- Translation of `row[4].strip().lower()` from `main`, the value the
coordinator's status filter inspects. -/
def rowStatus (row : List String) : String :=
  pyLower (pyStrip (row.getD 4 ""))

/-- Translation of the coordinator's filter `if status == "done": continue`. -/
def skipRow (row : List String) : Bool :=
  rowStatus row == "done"

/-- C4 (evaluation at the failing input): a worklist row with only the four
credential columns is padded so that column 4 — the column `main` reads as
the status — becomes the empty string, while the string `pending` is
appended at column 5; the coordinator's filter therefore sees `""`, not
`pending` (the row is still processed, since `""` is not `done`). -/
theorem C4_padding_eval :
    padRow ["user@gmail.com", "gpw", "host@mail.com", "hpw"]
      = ["user@gmail.com", "gpw", "host@mail.com", "hpw", "", "pending", ""] ∧
    rowStatus (padRow ["user@gmail.com", "gpw", "host@mail.com", "hpw"]) = "" ∧
    rowStatus (padRow ["user@gmail.com", "gpw", "host@mail.com", "hpw"]) ≠ "pending" ∧
    skipRow (padRow ["user@gmail.com", "gpw", "host@mail.com", "hpw"]) = false := by
  refine ⟨by decide, by decide, by decide, by decide⟩

/- ------------------------------------------------------------------
Purchase-response parsing, from `handle_phone_verification`
(src lines 240-264):

    for key in ("number", "phone", "msisdn", "phonenumber"):
        if key in number_data: phone_number = number_data[key]; break
    for key in ("orderid", "order_id", "orderId", "id"):
        if key in number_data: order_id = number_data[key]; break
    if not phone_number and "result" in number_data and isinstance(number_data["result"], dict):
        phone_number = number_data["result"].get("number") or number_data["result"].get("phone")
        order_id = number_data["result"].get("orderid") or number_data["result"].get("order_id")
    if not phone_number:
        ...
        return False
------------------------------------------------------------------- -/

/-- Leaf JSON value; the parsing code needs no deeper nesting. -/
inductive JLeaf where
  | nul : JLeaf
  | str : String → JLeaf
  | num : Int → JLeaf
deriving DecidableEq

/-- Top-level JSON value of the purchase response: a leaf, or a nested
object such as the `result` object. -/
inductive JVal where
  | leaf : JLeaf → JVal
  | dict : List (String × JLeaf) → JVal
deriving DecidableEq

/-- Python truthiness of a leaf value. -/
def JLeaf.truthy : JLeaf → Bool
  | JLeaf.nul => false
  | JLeaf.str s => !(s == "")
  | JLeaf.num n => !(n == 0)

/-- Python truthiness of a top-level value. -/
def JVal.truthy : JVal → Bool
  | JVal.leaf v => JLeaf.truthy v
  | JVal.dict l => !l.isEmpty

/-- Python `d[key]` with presence check (`key in d`) over the response
mapping, modelled as an association list. -/
def jget (m : List (String × JVal)) (k : String) : Option JVal :=
  List.lookup k m

/-- Python `d.get(key)` on the nested `result` object. -/
def lget (r : List (String × JLeaf)) (k : String) : Option JLeaf :=
  List.lookup k r

/-- Python truthiness of an optional top-level value (`not phone_number`). -/
def optTruthy : Option JVal → Bool
  | some v => JVal.truthy v
  | none => false

/-- Python `a or b` on two `d.get(...)` results: the first operand when it
is truthy, otherwise the second operand (even when that one is absent). -/
def pyOrLeaf (a b : Option JLeaf) : Option JLeaf :=
  match a with
  | some v => if JLeaf.truthy v then a else b
  | none => b

/-- Translation of a `for key in (...): if key in number_data: ... break`
probe: the value under the first key present in the mapping, even when the
value itself is falsy. -/
def probeKeys (m : List (String × JVal)) : List String → Option JVal
  | [] => none
  | k :: ks =>
    match jget m k with
    | some v => some v
    | none => probeKeys m ks

def phoneKeys : List String := ["number", "phone", "msisdn", "phonenumber"]

def orderKeys : List String := ["orderid", "order_id", "orderId", "id"]

/-- Translation of the extraction of `phone_number` and `order_id` from the
purchase response (the state of the two Python variables after src lines
240-259). -/
def parse_number_data (m : List (String × JVal)) : Option JVal × Option JVal :=
  let phone0 := probeKeys m phoneKeys
  let order0 := probeKeys m orderKeys
  if optTruthy phone0 = false then
    match jget m "result" with
    | some (JVal.dict r) =>
      (Option.map JVal.leaf (pyOrLeaf (lget r "number") (lget r "phone")),
       Option.map JVal.leaf (pyOrLeaf (lget r "orderid") (lget r "order_id")))
    | _ => (phone0, order0)
  else (phone0, order0)

/-- Translation of src lines 261-263: with no usable (truthy) phone number
the bypass returns failure (`return False`, modelled as `none`) instead of
raising an exception; otherwise it continues with the phone number and the
optional order id. -/
def acquireOutcome (m : List (String × JVal)) : Option (JVal × Option JVal) :=
  match parse_number_data m with
  | (some v, o) => if JVal.truthy v then some (v, o) else none
  | (none, _) => none

/-- Order-id extraction as the specification words it: probe the plausible
key names at the top level of the response mapping and, only if absent
there, inside the nested `result` object; the first successful extraction
rule wins.  This definition follows the spec's words and is compared with
`parse_number_data`, which is translated from the source. -/
def orderExtractSpec (m : List (String × JVal)) : Option JVal :=
  match probeKeys m orderKeys with
  | some v => some v
  | none =>
    match jget m "result" with
    | some (JVal.dict r) =>
      Option.map JVal.leaf (pyOrLeaf (lget r "orderid") (lget r "order_id"))
    | _ => none

/-- A purchase response carrying the order id under the top-level key `id`
and the phone number only inside the nested `result` object. -/
def purchaseRespEx : List (String × JVal) :=
  [("id", JVal.leaf (JLeaf.num 7)),
   ("result", JVal.dict [("number", JLeaf.str "15551234567")])]

/-- C8 counterexample: on a response whose order id sits at the top level
(under `id`) while the phone number sits only inside `result`, the spec's
first-success-wins order extraction yields the top-level id `7`, but the
code overwrites the already-found order id with the (absent) nested one and
ends up with no order id at all. -/
theorem C8_counterexample :
    orderExtractSpec purchaseRespEx = some (JVal.leaf (JLeaf.num 7)) ∧
    probeKeys purchaseRespEx orderKeys = some (JVal.leaf (JLeaf.num 7)) ∧
    (parse_number_data purchaseRespEx).2 = none ∧
    (parse_number_data purchaseRespEx).1 = some (JVal.leaf (JLeaf.str "15551234567")) := by
  refine ⟨rfl, rfl, rfl, rfl⟩

/-- C8 amended: the phone number is probed under
`number`/`phone`/`msisdn`/`phonenumber` at top level, first present key
wins; when the top-level phone value is truthy, both extractions keep their
top-level results.  When it is not, and a nested `result` dictionary is
present, the code takes the phone from `result.number or result.phone` and
overwrites the order id with `result.orderid or result.order_id` — even
when an order id had already been found at the top level.  Whenever no
truthy phone number is located, the bypass returns failure rather than
raising an exception. -/
theorem C8_response_probing :
    (∀ m : List (String × JVal), optTruthy (probeKeys m phoneKeys) = true →
      parse_number_data m = (probeKeys m phoneKeys, probeKeys m orderKeys)) ∧
    (∀ (m : List (String × JVal)) (r : List (String × JLeaf)),
      optTruthy (probeKeys m phoneKeys) = false →
      jget m "result" = some (JVal.dict r) →
      parse_number_data m
        = (Option.map JVal.leaf (pyOrLeaf (lget r "number") (lget r "phone")),
           Option.map JVal.leaf (pyOrLeaf (lget r "orderid") (lget r "order_id")))) ∧
    (∀ m : List (String × JVal), optTruthy (parse_number_data m).1 = false →
      acquireOutcome m = none) := by
  refine ⟨?_, ?_, ?_⟩
  · intro m h
    rw [parse_number_data]
    simp [h]
  · intro m r h hres
    rw [parse_number_data]
    simp [h, hres]
  · intro m h
    rw [acquireOutcome]
    rcases hp : parse_number_data m with ⟨p, o⟩
    rcases p with _ | v
    · rfl
    · rw [hp] at h
      simp only [optTruthy] at h
      simp [h]

/-- Witness for C8's amended theorem: a response with a truthy top-level
phone number keeps both top-level extractions. -/
theorem C8_response_probing_witness :
    parse_number_data [("number", JVal.leaf (JLeaf.str "123")), ("id", JVal.leaf (JLeaf.num 5))]
      = (probeKeys [("number", JVal.leaf (JLeaf.str "123")), ("id", JVal.leaf (JLeaf.num 5))]
          phoneKeys,
         probeKeys [("number", JVal.leaf (JLeaf.str "123")), ("id", JVal.leaf (JLeaf.num 5))]
          orderKeys) :=
  C8_response_probing.1
    [("number", JVal.leaf (JLeaf.str "123")), ("id", JVal.leaf (JLeaf.num 5))] (by decide)

/- ------------------------------------------------------------------
Element resolver, from `find_and_click_element` (src lines 399-441):

    for selector in selectors:
        try:
            iframes = driver.find_elements(By.TAG_NAME, 'iframe')
            for iframe in iframes:
                driver.switch_to.frame(iframe)
                try:
                    element = WebDriverWait(...)
                    ...click...
                    driver.switch_to.default_content()
                    return True
                except:
                    driver.switch_to.default_content()
                    continue
            driver.switch_to.default_content()
            try:
                element = WebDriverWait(...)
                ...click...
                return True
            except:
                continue
        except:
            driver.switch_to.default_content()
            continue
    return False

The document context is `none` for the top-level document and `some f`
inside frame `f`; `ok ctx sel` says whether locating a clickable element
for `sel` and clicking it succeeds in context `ctx`.  The returned triple
is (result, final document context, which (selector, context) was
clicked). -/

/-- Translation of the iframe loop of `find_and_click_element`, tracking the
current document context. -/
def frameLoop (ok : Option Nat → String → Bool) (sel : String) :
    List Nat → Option Nat → Bool × Option Nat × Option (Option Nat)
  | [], ctx => (false, ctx, none)
  | f :: fs, _ =>
    if ok (some f) sel then (true, none, some (some f))
    else frameLoop ok sel fs none

/-- Translation of the selector loop of `find_and_click_element`: for each
selector, every frame is tried first, then (after restoring the top-level
context) the top-level document, then the next selector. -/
def selectorLoop (ok : Option Nat → String → Bool) (frames : List Nat) :
    List String → Option Nat → Bool × Option Nat × Option (String × Option Nat)
  | [], ctx => (false, ctx, none)
  | sel :: rest, ctx =>
    match frameLoop ok sel frames ctx with
    | (true, ctx2, hit) => (true, ctx2, Option.map (fun c => (sel, c)) hit)
    | (false, _, _) =>
      if ok none sel then (true, none, some (sel, none))
      else selectorLoop ok frames rest none

/-- Translation of `find_and_click_element` (entered with the browser in the
top-level document context). -/
def find_and_click_element (ok : Option Nat → String → Bool) (frames : List Nat)
    (selectors : List String) : Bool × Option Nat × Option (String × Option Nat) :=
  selectorLoop ok frames selectors none

/-- The search order the specification describes: for each locator in order,
every embedded frame first, then the top-level document. -/
def searchOrder (frames : List Nat) : List String → List (String × Option Nat)
  | [] => []
  | sel :: rest => frames.map (fun f => (sel, some f)) ++ (sel, none) :: searchOrder frames rest

/-- The resolver as the specification words it: the first (locator, context)
pair in the search order at which the element is found, if any.  This
definition follows the spec's words and is compared with
`find_and_click_element`, which is translated from the source. -/
def resolverSpec (ok : Option Nat → String → Bool) (frames : List Nat)
    (selectors : List String) : Option (String × Option Nat) :=
  List.find? (fun p => ok p.2 p.1) (searchOrder frames selectors)

theorem find_eq_match_append {α : Type} (p : α → Bool) :
    ∀ l1 l2 : List α, List.find? p (l1 ++ l2)
      = match List.find? p l1 with
        | some x => some x
        | none => List.find? p l2 := by
  intro l1 l2
  induction l1 with
  | nil => simp
  | cons a t ih =>
    cases h : p a
    · simp [List.find?_cons, h, ih]
    · simp [List.find?_cons, h]

theorem find_map_frames (ok : Option Nat → String → Bool) (sel : String) :
    ∀ fs : List Nat,
      List.find? (fun p => ok p.2 p.1) (fs.map (fun f => (sel, some f)))
        = Option.map (fun f => (sel, some f)) (List.find? (fun f => ok (some f) sel) fs) := by
  intro fs
  induction fs with
  | nil => simp
  | cons f t ih =>
    cases h : ok (some f) sel
    · simp [List.find?_cons, h, ih]
    · simp [List.find?_cons, h]

theorem frameLoop_found (ok : Option Nat → String → Bool) (sel : String) :
    ∀ (fs : List Nat) (ctx : Option Nat) (f : Nat),
      List.find? (fun f => ok (some f) sel) fs = some f →
      frameLoop ok sel fs ctx = (true, none, some (some f)) := by
  intro fs
  induction fs with
  | nil => intro ctx f h; simp at h
  | cons g t ih =>
    intro ctx f h
    cases hg : ok (some g) sel
    · simp only [List.find?_cons, hg] at h
      simp only [frameLoop, hg, if_false]
      exact ih none f h
    · simp only [List.find?_cons, hg, Option.some.injEq] at h
      subst h
      simp [frameLoop, hg]

theorem frameLoop_none (ok : Option Nat → String → Bool) (sel : String) :
    ∀ (fs : List Nat) (ctx : Option Nat),
      List.find? (fun f => ok (some f) sel) fs = none →
      ∃ ctx2, frameLoop ok sel fs ctx = (false, ctx2, none) := by
  intro fs
  induction fs with
  | nil => intro ctx _; exact ⟨ctx, rfl⟩
  | cons g t ih =>
    intro ctx h
    cases hg : ok (some g) sel
    · simp only [List.find?_cons, hg] at h
      simp only [frameLoop, hg, if_false]
      exact ih none h
    · simp only [List.find?_cons, hg] at h
      exact absurd h (by simp)

/-- C7: the element resolver tries, for each locator in order, every
embedded frame first and then the top-level document, returning success at
the first (locator, context) match and failure when no locator matches; and
on every return path the document context has been restored to the
top-level document (`none`). -/
theorem C7_element_resolver (ok : Option Nat → String → Bool) (frames : List Nat)
    (selectors : List String) :
    find_and_click_element ok frames selectors
      = ((resolverSpec ok frames selectors).isSome, none,
          resolverSpec ok frames selectors) := by
  rw [find_and_click_element]
  induction selectors with
  | nil => rfl
  | cons sel rest ih =>
    rw [resolverSpec, searchOrder, find_eq_match_append, find_map_frames]
    cases hf : List.find? (fun f => ok (some f) sel) frames with
    | some f =>
      rw [selectorLoop, frameLoop_found ok sel frames none f hf]
      rfl
    | none =>
      obtain ⟨ctx2, hfl⟩ := frameLoop_none ok sel frames none hf
      rw [selectorLoop, hfl]
      cases htop : ok none sel
      · simp only [List.find?_cons, htop, Bool.false_eq_true, if_false]
        simpa [resolverSpec] using ih
      · simp [List.find?_cons, htop]

/- ------------------------------------------------------------------
Profile-directory naming, from `process_single_account` (src line 447):

    user_data_dir = f"/tmp/seleniumbase_user_data_{worker_id}_{os.getpid()}_{random.randint(1000, 9999)}"

and the worker-id assignment in `main` (src line 898):

    worker_id = f"thread_{i+1}"

where `i` is the batch's start index, so every worker launched in the same
batch receives the same worker id.  To reason about the rendered names we
first prove that the decimal rendering of a natural number (`Nat.repr`,
which is what an f-string interpolation of an int produces) is injective.
------------------------------------------------------------------- -/

/-- Decimal digit characters of a natural number, most significant first. -/
def natDigits (n : Nat) : List Char :=
  if n < 10 then [Nat.digitChar n]
  else natDigits (n / 10) ++ [Nat.digitChar (n % 10)]
decreasing_by exact Nat.div_lt_self (by omega) (by omega)

theorem toDigitsCore_acc :
    ∀ (fuel n : Nat) (ds : List Char),
      Nat.toDigitsCore 10 fuel n ds = Nat.toDigitsCore 10 fuel n [] ++ ds := by
  intro fuel
  induction fuel with
  | zero => intro n ds; simp [Nat.toDigitsCore]
  | succ k ih =>
    intro n ds
    rw [Nat.toDigitsCore, Nat.toDigitsCore]
    by_cases h : n / 10 = 0
    · simp [h]
    · rw [if_neg h, if_neg h, ih (n / 10) (Nat.digitChar (n % 10) :: ds),
        ih (n / 10) [Nat.digitChar (n % 10)], List.append_assoc, List.singleton_append]

theorem toDigitsCore_eq_natDigits :
    ∀ (fuel n : Nat), n < fuel → Nat.toDigitsCore 10 fuel n [] = natDigits n := by
  intro fuel
  induction fuel with
  | zero => intro n h; omega
  | succ k ih =>
    intro n h
    rw [Nat.toDigitsCore]
    by_cases h0 : n / 10 = 0
    · have hn : n < 10 := by omega
      rw [if_pos h0, natDigits, if_pos hn, Nat.mod_eq_of_lt hn]
    · have hn : ¬ n < 10 := by omega
      rw [if_neg h0, toDigitsCore_acc k (n / 10) [Nat.digitChar (n % 10)],
        ih (n / 10) (by omega)]
      conv_rhs => rw [natDigits]
      rw [if_neg hn]

/-- Numeric value of a decimal digit character. -/
def charVal (c : Char) : Nat := c.toNat - 48

/-- Value of a most-significant-first decimal digit string. -/
def ofChars (l : List Char) : Nat := l.foldl (fun a c => 10 * a + charVal c) 0

theorem charVal_digitChar (d : Nat) (h : d < 10) : charVal (Nat.digitChar d) = d := by
  interval_cases d <;> rfl

theorem ofChars_natDigits : ∀ n : Nat, ofChars (natDigits n) = n := by
  intro n
  induction n using Nat.strong_induction_on with
  | _ n ih =>
    by_cases h : n < 10
    · rw [natDigits, if_pos h]
      simp [ofChars, List.foldl, charVal_digitChar n h]
    · rw [natDigits, if_neg h]
      rw [ofChars, List.foldl_append]
      have hdiv : ofChars (natDigits (n / 10)) = n / 10 :=
        ih (n / 10) (Nat.div_lt_self (by omega) (by omega))
      rw [ofChars] at hdiv
      simp only [List.foldl, hdiv, charVal_digitChar (n % 10) (Nat.mod_lt n (by omega))]
      omega

theorem natDigits_injective {m n : Nat} (h : natDigits m = natDigits n) : m = n := by
  rw [← ofChars_natDigits m, ← ofChars_natDigits n, h]

/-- Decimal rendering of natural numbers is injective. -/
theorem natRepr_injective {m n : Nat} (h : Nat.repr m = Nat.repr n) : m = n := by
  have h2 : Nat.toDigits 10 m = Nat.toDigits 10 n := congrArg String.data h
  rw [Nat.toDigits, Nat.toDigits, toDigitsCore_eq_natDigits (m + 1) m (by omega),
    toDigitsCore_eq_natDigits (n + 1) n (by omega)] at h2
  exact natDigits_injective h2

/-- Translation of the profile-directory name from `process_single_account`
(src line 447). -/
def user_data_dir (worker_id : String) (pid : Nat) (rand : Nat) : String :=
  "/tmp/seleniumbase_user_data_" ++ worker_id ++ "_" ++ Nat.repr pid ++ "_" ++ Nat.repr rand

/-- Translation of the worker-id assignment `worker_id = f"thread_{i+1}"`
in `main` (src line 898), where `i` is the batch's start index. -/
def workerIdFor (batchStart : Nat) : String :=
  "thread_" ++ Nat.repr (batchStart + 1)

/-- One workflow execution's identity: the WorkItem key together with the
inputs from which the profile directory name is built. -/
structure Execution where
  gemail : String
  workerId : String
  pid : Nat
  rand : Nat
deriving DecidableEq

/-- The profile directory name a workflow execution uses. -/
def profileDirOf (e : Execution) : String :=
  user_data_dir e.workerId e.pid e.rand

/-- C9 counterexample: two distinct workflow executions — different
WorkItems launched in the same batch (hence both with worker id
`thread_1`) of the same process — that draw the same random integer receive
identical profile directory names, so profile-directory names are not
guaranteed distinct across distinct executions. -/
theorem C9_counterexample :
    (⟨"a@gmail.com", workerIdFor 0, 4242, 1234⟩ : Execution)
        ≠ (⟨"b@gmail.com", workerIdFor 0, 4242, 1234⟩ : Execution) ∧
    profileDirOf ⟨"a@gmail.com", workerIdFor 0, 4242, 1234⟩
      = profileDirOf ⟨"b@gmail.com", workerIdFor 0, 4242, 1234⟩ :=
  ⟨by decide, rfl⟩

/-- C9 amended: for two executions sharing the worker id and process id (as
all workers of one batch do), the profile directory names coincide exactly
when the two random draws coincide; distinct draws give distinct names, but
nothing prevents two workers of a batch from drawing the same integer. -/
theorem C9_profile_dir_uniqueness (w : String) (p r1 r2 : Nat) :
    user_data_dir w p r1 = user_data_dir w p r2 ↔ r1 = r2 := by
  constructor
  · intro h
    apply natRepr_injective
    apply String.ext
    have h2 := congrArg String.data h
    simp only [user_data_dir, String.data_append] at h2
    repeat rw [List.append_assoc] at h2
    exact List.append_cancel_left (List.append_cancel_left (List.append_cancel_left
      (List.append_cancel_left (List.append_cancel_left h2))))
  · intro h
    rw [h]

/-- Witness for the amended C9 theorem: two distinct random draws give two
distinct directory names. -/
theorem C9_profile_dir_uniqueness_witness :
    user_data_dir "thread_1" 4242 1234 ≠ user_data_dir "thread_1" 4242 5678 :=
  fun h => absurd ((C9_profile_dir_uniqueness "thread_1" 4242 1234 5678).mp h) (by decide)

/- ------------------------------------------------------------------
The per-account workflow, from `process_single_account` (src lines
443-868).  The function is modelled over an environment saying which
UI steps succeed: steps 1-9, 11 and 12 are the mandatory steps (3 retries
where the source retries; a step's flag says whether it eventually
succeeded), then the Continue gate (src 760-795), the Allow gate
(src 797-818), and the switch back to the host window (src 820-828).
The optional steps — "Use another account" (src 609-617), the
phone-verification bypass (src 668-680), the "I understand" probe
(src 682-758), the Connected check and the Back click (src 830-850) —
absorb their failures without reporting a status or aborting, so they do
not influence the observables and carry no flag in `Env`.  `errText`
stands for the Python `str(e)` of whichever exception a failing step
raises.

Observables: the list of statuses posted for the WorkItem via
`update_status_in_sheet`, in order; whether the browser session is still
open when the `return` statement executes (before the `finally` block);
whether it is open after the `finally` block ran; and the returned value.

Failure paths in the source:
  * `driver = Driver(...)` raising: caught at src 856, one `issue:` report,
    no session ever opened.
  * a mandatory step exhausting its retries: the step handler posts
    `issue: <msg>` and raises `Exception(<msg>)`, and the outer handler at
    src 856-861 posts `issue: <msg>` again, so the same message is
    reported twice; the session is still open at the `return` and closed
    by `finally`.
  * the Continue gate failing: one `issue:` report, `driver.quit()` before
    the `return` (src 784), so the session is already closed at the
    `return`.
  * the Allow gate failing: same shape as the Continue gate (src 816).
  * the Allow gate succeeding: `done` is posted (src 808); if the
    subsequent window switch fails, its handler posts `issue:` and raises,
    and the outer handler posts the same `issue:` again.
------------------------------------------------------------------- -/

/-- Which steps of one execution of `process_single_account` succeed. -/
structure Env where
  createOk : Bool
  navOk : Bool
  instantlyEmailOk : Bool
  instantlyPasswordOk : Bool
  loginButtonOk : Bool
  addNewOk : Bool
  gmailOptionOk : Bool
  oauthOptionOk : Bool
  oauthLoginOk : Bool
  switchWindowOk : Bool
  gmailEmailOk : Bool
  gmailPasswordOk : Bool
  continueOk : Bool
  allowOk : Bool
  switchBackOk : Bool
  errText : String
deriving DecidableEq

/-- Observable outcome of one execution of `process_single_account`. -/
structure Outcome where
  reports : List String
  openAtReturn : Bool
  openFinal : Bool
  result : Bool
deriving DecidableEq

/-- A status string of the form `issue: <message>`. -/
def issue (m : String) : String := "issue: " ++ m

/-- The error message of the first failing mandatory step among steps 1-12
of `process_single_account`, if any, with the source's message texts. -/
def earlyFailure (env : Env) : Option String :=
  if env.navOk = false then
    some ("Failed to navigate to Instantly login: " ++ env.errText)
  else if env.instantlyEmailOk = false then
    some ("Failed to enter Instantly email: " ++ env.errText)
  else if env.instantlyPasswordOk = false then
    some ("Failed to enter Instantly password: " ++ env.errText)
  else if env.loginButtonOk = false then
    some ("Failed to click Instantly login button: " ++ env.errText)
  else if env.addNewOk = false then
    some ("Failed to click Add New button: " ++ env.errText)
  else if env.gmailOptionOk = false then
    some ("Failed to click Gmail option: " ++ env.errText)
  else if env.oauthOptionOk = false then
    some ("Failed to click OAuth option: " ++ env.errText)
  else if env.oauthLoginOk = false then
    some ("Failed to click OAuth Login button: " ++ env.errText)
  else if env.switchWindowOk = false then
    some ("Failed to switch to Google login window: " ++ env.errText)
  else if env.gmailEmailOk = false then
    some ("Failed to enter Gmail email or click Next: " ++ env.errText)
  else if env.gmailPasswordOk = false then
    some ("Failed to enter Gmail password or click Next: " ++ env.errText)
  else none

/-- Translation of `process_single_account`, as a function from the
environment to the observable outcome. -/
def process_single_account (env : Env) : Outcome :=
  if env.createOk = false then
    { reports := [issue env.errText], openAtReturn := false, openFinal := false,
      result := false }
  else
    match earlyFailure env with
    | some m =>
      { reports := [issue m, issue m], openAtReturn := true, openFinal := false,
        result := false }
    | none =>
      if env.continueOk = false then
        { reports := [issue "Continue button not found within 10 seconds - closing browser"],
          openAtReturn := false, openFinal := false, result := false }
      else if env.allowOk = false then
        { reports := [issue ("Allow button not found within 10 seconds: " ++ env.errText)],
          openAtReturn := false, openFinal := false, result := false }
      else if env.switchBackOk = false then
        { reports := ["done", issue ("Failed to switch back to main window: " ++ env.errText),
            issue ("Failed to switch back to main window: " ++ env.errText)],
          openAtReturn := true, openFinal := false, result := false }
      else
        { reports := ["done"], openAtReturn := true, openFinal := false, result := true }

/-- The workflow reaches the Allow step and the Allow click succeeds. -/
def allowSucceeded (env : Env) : Bool :=
  env.createOk && (earlyFailure env).isNone && env.continueOk && env.allowOk

/-- The workflow reaches the late-stage gates and the Continue gate or the
Allow gate fails within its 10-second budget. -/
def gateFailed (env : Env) : Bool :=
  env.createOk && (earlyFailure env).isNone && (!env.continueOk || !env.allowOk)

/-- A status starting with `issue: `. -/
def startsWithIssue (r : String) : Bool :=
  List.isPrefixOf "issue: ".data r.data

theorem isPrefixOf_append_self : ∀ l t : List Char, List.isPrefixOf l (l ++ t) = true := by
  intro l t
  induction l with
  | nil => simp [List.isPrefixOf]
  | cons a l ih => simp [List.isPrefixOf, ih]

theorem startsWithIssue_issue (m : String) : startsWithIssue (issue m) = true := by
  show List.isPrefixOf "issue: ".data (("issue: " ++ m).data) = true
  rw [String.data_append]
  exact isPrefixOf_append_self _ _

theorem issue_ne_done (m : String) : issue m ≠ "done" := by
  intro h
  have h2 : (("issue: " ++ m).data).head? = (("done" : String).data).head? :=
    congrArg (fun s => s.data.head?) h
  rw [String.data_append] at h2
  have hl : ("issue: ".data ++ m.data).head? = some 'i' := rfl
  have hr : (("done" : String).data).head? = some 'd' := rfl
  rw [hl, hr] at h2
  exact absurd h2 (by decide)

theorem issue_beq_done (m : String) : (issue m == "done") = false :=
  beq_eq_false_iff_ne.mpr (issue_ne_done m)

theorem done_beq_issue (m : String) : (("done" : String) == issue m) = false :=
  beq_eq_false_iff_ne.mpr (fun h => issue_ne_done m h.symm)

theorem done_ne_issue (m : String) : ("done" : String) ≠ issue m :=
  fun h => issue_ne_done m h.symm

/-- An environment where every step succeeds. -/
def envAllOk : Env :=
  { createOk := true, navOk := true, instantlyEmailOk := true, instantlyPasswordOk := true,
    loginButtonOk := true, addNewOk := true, gmailOptionOk := true, oauthOptionOk := true,
    oauthLoginOk := true, switchWindowOk := true, gmailEmailOk := true, gmailPasswordOk := true,
    continueOk := true, allowOk := true, switchBackOk := true, errText := "E" }

/-- An environment where every step succeeds except the switch back to the
host window after the successful Allow click. -/
def envSwitchBackFails : Env :=
  { envAllOk with switchBackOk := false }

/-- An environment where every step up to the Continue gate succeeds and
the Continue gate fails. -/
def envContinueFails : Env :=
  { envAllOk with continueOk := false }

/-- C1 counterexample: in an execution where the workflow reaches the Allow
step and the Allow click succeeds but the subsequent switch back to the
host window fails, the statuses reported for the WorkItem are not only
`done`: two `issue:` reports follow it. -/
theorem C1_counterexample :
    allowSucceeded envSwitchBackFails = true ∧
    ((process_single_account envSwitchBackFails).reports.all (fun r => r == "done")) = false ∧
    (process_single_account envSwitchBackFails).reports
      = ["done", issue "Failed to switch back to main window: E",
         issue "Failed to switch back to main window: E"] := by
  refine ⟨by decide, by decide, by decide⟩

/-- C1 (amended): when the workflow reaches the Allow step and the Allow
click succeeds, `done` is reported at that point — it is the first status
reported — and the successful Allow click is the single point at which
`done` is ever reported (`done` appears among the reports exactly when the
Allow click succeeded, and at most once); every other report starts with
`issue: `, and reports after `done` arise only when the switch back to the
host window fails. -/
theorem C1_done_reporting (env : Env) :
    ((process_single_account env).reports.contains "done" = allowSucceeded env) ∧
    (allowSucceeded env = true → (process_single_account env).reports.head? = some "done") ∧
    (process_single_account env).reports.count "done" ≤ 1 ∧
    ((process_single_account env).reports.all
      (fun r => r == "done" || startsWithIssue r)) = true := by
  cases hc : env.createOk with
  | false =>
    simp [process_single_account, hc, allowSucceeded, List.contains, List.elem,
      done_beq_issue, issue_beq_done, done_ne_issue, issue_ne_done, startsWithIssue_issue, List.count_cons]
  | true =>
    cases hef : earlyFailure env with
    | some m =>
      simp [process_single_account, hc, allowSucceeded, hef, List.contains, List.elem,
        done_beq_issue, issue_beq_done, done_ne_issue, issue_ne_done, startsWithIssue_issue, List.count_cons]
    | none =>
      cases hcont : env.continueOk with
      | false =>
        simp [process_single_account, hc, allowSucceeded, hef, hcont, List.contains,
          List.elem, done_beq_issue, issue_beq_done, done_ne_issue, issue_ne_done, startsWithIssue_issue, List.count_cons]
      | true =>
        cases hallow : env.allowOk with
        | false =>
          simp [process_single_account, hc, allowSucceeded, hef, hcont, hallow,
            List.contains, List.elem, done_beq_issue, issue_beq_done, done_ne_issue, issue_ne_done, startsWithIssue_issue,
            List.count_cons]
        | true =>
          cases hsb : env.switchBackOk with
          | false =>
            simp [process_single_account, hc, allowSucceeded, hef, hcont, hallow, hsb,
              List.contains, List.elem, done_beq_issue, issue_beq_done, done_ne_issue, issue_ne_done, startsWithIssue_issue,
              List.count_cons]
          | true =>
            simp [process_single_account, hc, allowSucceeded, hef, hcont, hallow, hsb,
              List.contains, List.elem, done_beq_issue, issue_beq_done, done_ne_issue, issue_ne_done, startsWithIssue_issue,
              List.count_cons]

/-- Witness for C1's amended theorem: with every step succeeding, the first
(and only) report is `done`. -/
theorem C1_done_reporting_witness :
    (process_single_account envAllOk).reports.head? = some "done" :=
  (C1_done_reporting envAllOk).2.1 (by decide)

/-- C2: whenever the workflow reaches the late-stage gates and the Continue
gate or the Allow gate fails within its 10-second budget, the browser
session is torn down before the function returns and every status reported
for the WorkItem starts with `issue: ` (at least one is reported); and on
every exit path of the workflow the session is closed by the unconditional
cleanup phase. -/
theorem C2_gate_teardown (env : Env) :
    (gateFailed env = true →
      (process_single_account env).openAtReturn = false ∧
      (process_single_account env).reports ≠ [] ∧
      ((process_single_account env).reports.all startsWithIssue) = true) ∧
    (process_single_account env).openFinal = false := by
  cases hc : env.createOk with
  | false =>
    simp [process_single_account, hc, gateFailed]
  | true =>
    cases hef : earlyFailure env with
    | some m =>
      simp [process_single_account, hc, gateFailed, hef]
    | none =>
      cases hcont : env.continueOk with
      | false =>
        simp [process_single_account, hc, gateFailed, hef, hcont, startsWithIssue_issue]
      | true =>
        cases hallow : env.allowOk with
        | false =>
          simp [process_single_account, hc, gateFailed, hef, hcont, hallow,
            startsWithIssue_issue]
        | true =>
          cases hsb : env.switchBackOk with
          | false =>
            simp [process_single_account, hc, gateFailed, hef, hcont, hallow, hsb]
          | true =>
            simp [process_single_account, hc, gateFailed, hef, hcont, hallow, hsb]

/-- Witness for C2: with the Continue gate failing, the session is closed
before the return and the single report starts with `issue: `. -/
theorem C2_gate_teardown_witness :
    (process_single_account envContinueFails).openAtReturn = false ∧
    (process_single_account envContinueFails).reports ≠ [] ∧
    ((process_single_account envContinueFails).reports.all startsWithIssue) = true :=
  (C2_gate_teardown envContinueFails).1 (by decide)

end InstantlyUploads
